import Mathlib

/-!
Verification development for the chewie 802.1X authenticator dispatcher
(src/chewie/chewie.py) and its supplicant-facing sockets
(src/chewie/nfv_sockets.py).

The dispatcher state (class Chewie) is embedded as a record of its mutable
fields; state machine objects are abstracted to the interface the dispatcher
reads from them (is_in_progress, is_success, current_id, and an identity tag),
and event delivery to a state machine is recorded in a trace rather than
executed, since the state machine classes live outside the verified sources.
Randomness (get_random_id) is supplied explicitly as a list of successive
draws.  Timer scheduling (timer_scheduler.call_later) appends a job record;
JobHandle.cancel is a flag per job id.
-/

/-- Generic pointwise map update, standing in for a Python dict entry write. -/
def upd {α β : Type} [DecidableEq α] (m : α → β) (k : α) (v : β) : α → β :=
  fun q => if q = k then v else m q

theorem upd_self {α β : Type} [DecidableEq α] (m : α → β) (k : α) (v : β) :
    upd m k v k = v := by
  simp [upd]

theorem upd_other {α β : Type} [DecidableEq α] (m : α → β) (k q : α) (v : β)
    (h : q ≠ k) : upd m k v q = m q := by
  simp [upd, h]

abbrev Mac := String
abbrev Port := String

/-- Abstraction of a per-session state machine object: the dispatcher only
reads is_in_progress(), is_success(), current_id (absent on machines that do
not define it, hence an Option) and distinguishes the MAB variant from the
full EAP variant.  uid is object identity. -/
structure SM where
  uid : Nat
  isMab : Bool
  inProgress : Bool
  isSuccess : Bool
  currentId : Option Int
deriving DecidableEq, Repr

/-- Events delivered to state machines by the dispatcher (chewie/event.py
constructors used in chewie.py). -/
inductive ChewieEvent where
  | portStatusChange (status : Bool)
  | messageReceived (msgId : Int) (src : Mac) (port : Port)
  | preemptiveResponseReceived (msgId : Int) (src : Mac) (port : Port) (preId : Int)
deriving DecidableEq, Repr

/-- Eap.REQUEST code. -/
def EAP_REQUEST : Nat := 1

/-- Chewie.PAE_GROUP_ADDRESS. -/
def PAE_GROUP_ADDRESS : Mac := "01:80:c2:00:00:03"

/-- IdentityMessage(address, message_id, code, identity) as built in
send_preemptive_identity_request. -/
structure IdentityMsg where
  addr : Mac
  msgId : Int
  code : Nat
  identity : String
deriving DecidableEq, Repr

/-- EapQueueMessage(message, src_mac, port_mac) placed on eap_output_messages. -/
structure EapQueueMessage where
  message : IdentityMsg
  src_mac : Mac
  port_mac : Mac
deriving DecidableEq, Repr

/-- The EAP Identity Request enqueued by send_preemptive_identity_request:
IdentityMessage(PAE_GROUP_ADDRESS, i, Eap.REQUEST, "") wrapped with
src_mac = PAE group address and port_mac = MacAddress.from_string(port_id). -/
def preemptiveMsg (port_id : Port) (i : Int) : EapQueueMessage :=
  ⟨⟨PAE_GROUP_ADDRESS, i, EAP_REQUEST, ""⟩, PAE_GROUP_ADDRESS, port_id⟩

/-- Callbacks that chewie.py passes to timer_scheduler.call_later. -/
inductive TimerTask where
  | preemptiveCheck (port : Port)
  | reauth (src : Mac) (port : Port)
deriving DecidableEq, Repr

/-- One scheduled timer job (timer_scheduler.call_later result). -/
structure ScheduledJob where
  jid : Nat
  delay : Nat
  task : TimerTask
deriving DecidableEq, Repr

/-- Mutable state of the Chewie dispatcher object (chewie.py __init__):
state_machines is the two-level port -> mac -> machine table (the inner dict
as an insertion-ordered association list), plus the preemptive-id map, port
status map, identity-job map, the EAP outbound queue, the scheduled timer
jobs with their cancellation flags, and the running flag.  nextUid numbers
newly constructed state machine objects. -/
structure ChewieState where
  running : Bool
  state_machines : Port → Option (List (Mac × SM))
  port_to_eapol_id : Port → Option Int
  port_status : Port → Option Bool
  port_to_identity_job : Port → Option Nat
  eap_output : List EapQueueMessage
  jobs : List ScheduledJob
  nextJobId : Nat
  cancelled : Nat → Bool
  delivered : List (Nat × ChewieEvent)
  nextUid : Nat

/-- state_machines.get(port_id, {}).get(mac, None). -/
def lookupSM (s : ChewieState) (port_id : Port) (m : Mac) : Option SM :=
  match s.state_machines port_id with
  | none => none
  | some l => l.lookup m

/-- timer_scheduler.call_later: registers a job, returns its handle. -/
def call_later (s : ChewieState) (delay : Nat) (task : TimerTask) :
    Nat × ChewieState :=
  (s.nextJobId,
   { s with jobs := s.jobs ++ [⟨s.nextJobId, delay, task⟩],
            nextJobId := s.nextJobId + 1 })

/-- Chewie.set_port_status: writes port_status[port_id], creates an empty
session dict for the port when absent, and delivers EventPortStatusChange to
every machine on the port. -/
def set_port_status (s : ChewieState) (port_id : Port) (status : Bool) :
    ChewieState :=
  let s1 := { s with port_status := upd s.port_status port_id (some status) }
  let s2 := match s1.state_machines port_id with
    | none => { s1 with state_machines := upd s1.state_machines port_id (some []) }
    | some _ => s1
  let sms := (s2.state_machines port_id).getD []
  { s2 with delivered := s2.delivered ++
      sms.map (fun q => (q.2.uid, ChewieEvent.portStatusChange status)) }

/-- Chewie.port_down: set_port_status false, fetch the identity job, delete
the per-port session dict, cancel the job when present, pop the preemptive
eapol id. -/
def port_down (s : ChewieState) (port_id : Port) : ChewieState :=
  let s1 := set_port_status s port_id false
  let job := s1.port_to_identity_job port_id
  let s2 := match s1.state_machines port_id with
    | some _ => { s1 with state_machines := upd s1.state_machines port_id none }
    | none => s1
  let s3 := match job with
    | some j => { s2 with cancelled := upd s2.cancelled j true }
    | none => s2
  { s3 with port_to_eapol_id := upd s3.port_to_eapol_id port_id none }

/-- Chewie.DEFAULT_PORT_UP_IDENTITY_REQUEST_WAIT_PERIOD. -/
def DEFAULT_PORT_UP_IDENTITY_REQUEST_WAIT_PERIOD : Nat := 20

/-- Chewie.DEFAULT_PREEMPTIVE_IDENTITY_REQUEST_INTERVAL. -/
def DEFAULT_PREEMPTIVE_IDENTITY_REQUEST_INTERVAL : Nat := 60

/-- Chewie.port_up: set_port_status true and schedule
send_preemptive_identity_request_if_no_active_on_port after 20 s, storing
the job in port_to_identity_job. -/
def port_up (s : ChewieState) (port_id : Port) : ChewieState :=
  let s1 := set_port_status s port_id true
  let res := call_later s1 DEFAULT_PORT_UP_IDENTITY_REQUEST_WAIT_PERIOD
    (TimerTask.preemptiveCheck port_id)
  { res.2 with port_to_identity_job := upd res.2.port_to_identity_job port_id (some res.1) }

/-- The id selection of send_preemptive_identity_request: the first random
draw, redrawn while it equals the avoided current_id (when a machine with a
current_id attribute was supplied).  none models exhaustion of the supplied
draw list, i.e. the busy loop not having terminated yet. -/
def pickId (draws : List Int) (avoid : Option Int) : Option Int :=
  match avoid with
  | none => draws.head?
  | some c => draws.find? (fun d => d != c)

/-- Chewie.send_preemptive_identity_request: draw an id (avoiding
state_machine.current_id when a machine was passed and has that attribute),
record it in port_to_eapol_id and enqueue the Identity Request on
eap_output_messages. -/
def send_preemptive_identity_request (s : ChewieState) (port_id : Port)
    (state_machine : Option SM) (draws : List Int) : Option ChewieState :=
  let avoid : Option Int := match state_machine with
    | some sm => sm.currentId
    | none => none
  match pickId draws avoid with
  | none => none
  | some i => some { s with
      port_to_eapol_id := upd s.port_to_eapol_id port_id (some i),
      eap_output := s.eap_output ++ [preemptiveMsg port_id i] }

/-- The for-loop test in send_preemptive_identity_request_if_no_active_on_port:
some machine on the port is in progress or in success. -/
def anyActive (sms : List (Mac × SM)) : Bool :=
  sms.any (fun q => q.2.inProgress || q.2.isSuccess)

/-- Chewie.send_preemptive_identity_request_if_no_active_on_port: first
reschedule itself after 60 s, then return if the port is down
(port_status.get(port_id, False) falsy), then send the preemptive Identity
Request unless some machine on the port is in progress or success. -/
def send_preemptive_identity_request_if_no_active_on_port
    (s : ChewieState) (port_id : Port) (draws : List Int) : Option ChewieState :=
  let res := call_later s DEFAULT_PREEMPTIVE_IDENTITY_REQUEST_INTERVAL
    (TimerTask.preemptiveCheck port_id)
  let s2 := { res.2 with
    port_to_identity_job := upd res.2.port_to_identity_job port_id (some res.1) }
  if (s2.port_status port_id).getD false = false then some s2
  else
    let sms := (s2.state_machines port_id).getD []
    if anyActive sms then some s2
    else send_preemptive_identity_request s2 port_id none draws

/-- Chewie.reauth_port: look up the machine for (port_id, src_mac); when it
exists and is_success(), send the preemptive Identity Request passing the
machine; otherwise (machine None, or not in success) only log. -/
def reauth_port (s : ChewieState) (src_mac : Mac) (port_id : Port)
    (draws : List Int) : Option ChewieState :=
  match lookupSM s port_id src_mac with
  | some sm =>
    if sm.isSuccess then send_preemptive_identity_request s port_id (some sm) draws
    else some s
  | none => some s

/-- Chewie.get_state_machine: ensure the per-port dict exists, return the
stored machine when present (machine objects are always truthy), otherwise
construct and store a MAB machine when message_id == -2 and a full EAP
machine otherwise.  Freshly constructed machines are not in progress and not
in success. -/
def get_state_machine (s : ChewieState) (src_mac : Mac) (port_id : Port)
    (message_id : Int) : SM × ChewieState :=
  let s1 := match s.state_machines port_id with
    | none => { s with state_machines := upd s.state_machines port_id (some []) }
    | some _ => s
  let sms := (s1.state_machines port_id).getD []
  match sms.lookup src_mac with
  | some sm => (sm, s1)
  | none =>
    if message_id = -2 then
      let sm : SM := ⟨s1.nextUid, true, false, false, none⟩
      (sm, { s1 with
        state_machines := upd s1.state_machines port_id (some (sms ++ [(src_mac, sm)])),
        nextUid := s1.nextUid + 1 })
    else
      let sm : SM := ⟨s1.nextUid, false, false, false, none⟩
      (sm, { s1 with
        state_machines := upd s1.state_machines port_id (some (sms ++ [(src_mac, sm)])),
        nextUid := s1.nextUid + 1 })

/-- Chewie.send_eap_to_state_machine: drop the message when not running;
otherwise fetch or create the machine for (dst_mac, src_mac), and deliver an
EventPreemptiveEAPResponseMessageReceived when message_id is not -1 and
equals port_to_eapol_id.get(dst_mac, -2), an EventMessageReceived otherwise. -/
def send_eap_to_state_machine (s : ChewieState) (message_id : Int)
    (src_mac : Mac) (dst_mac : Port) : ChewieState :=
  if s.running = false then s
  else
    let r := get_state_machine s src_mac dst_mac message_id
    let pre := (r.2.port_to_eapol_id dst_mac).getD (-2)
    let ev := if message_id ≠ -1 ∧ message_id = pre
      then ChewieEvent.preemptiveResponseReceived message_id src_mac dst_mac pre
      else ChewieEvent.messageReceived message_id src_mac dst_mac
    { r.2 with delivered := r.2.delivered ++ [(r.1.uid, ev)] }

/-!
MabSocket (src/chewie/nfv_sockets.py).  A frame is a list of byte values;
Python slicing pkt[a:b] never fails, while struct.unpack of a slice of the
wrong size raises struct.error.
-/

/-- Python byte-string slice pkt[a:b]. -/
def pyslice (pkt : List Nat) (a b : Nat) : List Nat :=
  (pkt.drop a).take (b - a)

/-- struct.unpack with big-endian 16-bit format on a slice: requires exactly
two bytes, raising (none) otherwise. -/
def unpackBE16 (l : List Nat) : Option Nat :=
  match l with
  | [a, b] => some (a * 256 + b)
  | _ => none

/-- Outcome of MabSocket.receive examining one frame: return it, drop it and
keep listening, or raise struct.error. -/
inductive MabStep where
  | accept
  | skip
  | err
deriving DecidableEq, Repr

/-- One iteration of the MabSocket.receive filter: when pkt[23:24] equals
b"x11" unpack the UDP ports at [34:36] and [36:38] (struct.error when a
slice is not 2 bytes long) and accept exactly src 68, dst 67; any other
frame is skipped. -/
def mab_step (pkt : List Nat) : MabStep :=
  if pyslice pkt 23 24 = [0x11] then
    match unpackBE16 (pyslice pkt 34 36) with
    | none => MabStep.err
    | some src =>
      match unpackBE16 (pyslice pkt 36 38) with
      | none => MabStep.err
      | some dst =>
        if src = 68 ∧ dst = 67 then MabStep.accept else MabStep.skip
  else MabStep.skip

/-- Result of MabSocket.receive over a finite list of incoming frames:
a returned frame, a raised struct.error, or blocking for more input. -/
inductive MabResult where
  | accepted (pkt : List Nat)
  | raised
  | blocked
deriving DecidableEq, Repr

/-- MabSocket.receive: loop over incoming frames, returning the first
accepted one; skipped frames are dropped silently, a struct.error
propagates. -/
def MabSocket_receive : List (List Nat) → MabResult
  | [] => MabResult.blocked
  | pkt :: rest =>
    match mab_step pkt with
    | MabStep.accept => MabResult.accepted pkt
    | MabStep.skip => MabSocket_receive rest
    | MabStep.err => MabResult.raised

/-- The filter predicate named by the specification: IPv4 protocol byte at
offset 23 equals 0x11, UDP source port (offsets 34-35, big-endian) equals
68, UDP destination port (offsets 36-37) equals 67. -/
def mabPredB (pkt : List Nat) : Bool :=
  (pyslice pkt 23 24 == [0x11]) &&
  (unpackBE16 (pyslice pkt 34 36) == some 68) &&
  (unpackBE16 (pyslice pkt 36 38) == some 67)

/-!
Chewie.receive_mab_messages: the MAB receive loop.  Each iteration observes
the running flag at the while test and then runs the try block (receive plus
send_eth_to_state_machine); the whole try block either yields a frame or
raises.  The bare except sleeps 2 s and continues the loop.
-/

/-- Outcome of one try block in the MAB receive loop. -/
inductive RecvOutcome where
  | ok (pkt : List Nat)
  | exc
deriving DecidableEq, Repr

/-- One loop iteration input: the running flag as observed at the loop head,
and the try-block outcome. -/
structure LoopIter where
  running : Bool
  recv : RecvOutcome
deriving DecidableEq, Repr

/-- Observable action of one MAB loop iteration: a frame handed to
send_eth_to_state_machine, or the 2-second backoff sleep of the except
clause. -/
inductive MabAction where
  | handled (pkt : List Nat)
  | backoff
deriving DecidableEq, Repr

/-- The try block of receive_mab_messages: error means an exception was
raised inside receive or frame handling. -/
def mab_try_body (it : LoopIter) : Except Unit MabAction :=
  match it.recv with
  | RecvOutcome.ok pkt => Except.ok (MabAction.handled pkt)
  | RecvOutcome.exc => Except.error ()

/-- Chewie.receive_mab_messages over a finite iteration script: while
running, run the try block; the bare except turns any raised exception into
a backoff and the loop continues.  The result is an Except so that an
uncaught exception would surface as an error. -/
def receive_mab_messages : List LoopIter → Except Unit (List MabAction)
  | [] => Except.ok []
  | it :: rest =>
    if it.running then
      match mab_try_body it with
      | Except.ok a => (receive_mab_messages rest).map (fun acts => a :: acts)
      | Except.error _ =>
          (receive_mab_messages rest).map (fun acts => MabAction.backoff :: acts)
    else Except.ok []

/-!
EapSocket.close and the guard of Chewie.receive_eap_messages.
-/

/-- The OSError kind that EapSocket.close catches from shutdown and close. -/
inductive OSErr where
  | oserr
deriving DecidableEq, Repr

/-- EapSocket object: the socket field holds a descriptor or None. -/
structure EapSock where
  sock : Option Nat
deriving DecidableEq, Repr

/-- EapSocket.close: return immediately when the socket field is None;
otherwise shutdown and close (OSError from either is caught and ignored)
and null the socket field.  The Except records that no exception escapes. -/
def EapSocket_close (s : EapSock) : Except OSErr EapSock :=
  match s.sock with
  | none => Except.ok s
  | some _ => Except.ok { sock := none }

/-- Decision taken at the head of one receive_eap_messages iteration. -/
inductive IterDecision where
  | exitLoop
  | doReceive
deriving DecidableEq, Repr

/-- Head of the receive_eap_messages loop: exit when the running flag is
false; break when the eap_socket field or its socket is null; otherwise
proceed to the receive. -/
def receive_eap_iter (running : Bool) (es : Option EapSock) : IterDecision :=
  if running then
    match es with
    | none => IterDecision.exitLoop
    | some e =>
      match e.sock with
      | none => IterDecision.exitLoop
      | some _ => IterDecision.doReceive
  else IterDecision.exitLoop

/-!
Concrete states used by witnesses and counterexamples.
-/

/-- A full EAP machine in success state with current_id 5. -/
def smSucc : SM := ⟨0, false, false, true, some 5⟩

/-- A full EAP machine with an authentication in progress, current_id 7. -/
def smProg : SM := ⟨1, false, true, false, some 7⟩

/-- A dispatcher state with one idle port p1 hosting one machine, an
identity job 5, and preemptive id 9 recorded. -/
def wState : ChewieState :=
  { running := true
    state_machines := fun p =>
      if p = "p1" then some [("aa", SM.mk 0 false false false (some 5))] else none
    port_to_eapol_id := fun p => if p = "p1" then some 9 else none
    port_status := fun p => if p = "p1" then some true else none
    port_to_identity_job := fun p => if p = "p1" then some 5 else none
    eap_output := []
    jobs := []
    nextJobId := 6
    cancelled := fun _ => false
    delivered := []
    nextUid := 1 }

/-- A dispatcher state whose port p has a successful session aa (current_id
5) next to an in-progress session bb (current_id 7). -/
def cState : ChewieState :=
  { running := true
    state_machines := fun p =>
      if p = "p" then some [("aa", smSucc), ("bb", smProg)] else none
    port_to_eapol_id := fun p => if p = "p" then some 9 else none
    port_status := fun p => if p = "p" then some true else none
    port_to_identity_job := fun _ => none
    eap_output := []
    jobs := []
    nextJobId := 0
    cancelled := fun _ => false
    delivered := []
    nextUid := 2 }

/-- A dispatcher state with port p1 up and no sessions. -/
def eState : ChewieState :=
  { running := true
    state_machines := fun _ => none
    port_to_eapol_id := fun _ => none
    port_status := fun p => if p = "p1" then some true else none
    port_to_identity_job := fun _ => none
    eap_output := []
    jobs := []
    nextJobId := 0
    cancelled := fun _ => false
    delivered := []
    nextUid := 0 }

/-- A 24-byte frame whose IPv4 protocol byte (offset 23) is 0x11 but which
is too short to carry the UDP ports. -/
def mabBadPkt : List Nat := List.replicate 23 0 ++ [0x11]

/-- A 38-byte frame passing the DHCP filter: protocol byte 0x11, UDP source
port 68, destination port 67. -/
def mabGoodPkt : List Nat :=
  List.replicate 23 0 ++ [0x11] ++ List.replicate 10 0 ++ [0, 68, 0, 67]

/-!
Helper lemmas about the dispatcher operations.
-/

theorem set_port_status_sm_self (s : ChewieState) (p : Port) (b : Bool) :
    (set_port_status s p b).state_machines p = some ((s.state_machines p).getD []) := by
  cases h : s.state_machines p <;> simp [set_port_status, h, upd]

theorem set_port_status_sm_other (s : ChewieState) (p q : Port) (b : Bool)
    (hq : q ≠ p) : (set_port_status s p b).state_machines q = s.state_machines q := by
  cases h : s.state_machines p <;> simp [set_port_status, h, upd, hq]

theorem set_port_status_status (s : ChewieState) (p : Port) (b : Bool) :
    (set_port_status s p b).port_status = upd s.port_status p (some b) := by
  cases h : s.state_machines p <;> simp [set_port_status, h]

theorem set_port_status_job (s : ChewieState) (p : Port) (b : Bool) :
    (set_port_status s p b).port_to_identity_job = s.port_to_identity_job := by
  cases h : s.state_machines p <;> simp [set_port_status, h]

theorem set_port_status_eapol (s : ChewieState) (p : Port) (b : Bool) :
    (set_port_status s p b).port_to_eapol_id = s.port_to_eapol_id := by
  cases h : s.state_machines p <;> simp [set_port_status, h]

theorem set_port_status_cancelled (s : ChewieState) (p : Port) (b : Bool) :
    (set_port_status s p b).cancelled = s.cancelled := by
  cases h : s.state_machines p <;> simp [set_port_status, h]

theorem set_port_status_eap_output (s : ChewieState) (p : Port) (b : Bool) :
    (set_port_status s p b).eap_output = s.eap_output := by
  cases h : s.state_machines p <;> simp [set_port_status, h]

theorem set_port_status_jobs (s : ChewieState) (p : Port) (b : Bool) :
    (set_port_status s p b).jobs = s.jobs := by
  cases h : s.state_machines p <;> simp [set_port_status, h]

theorem set_port_status_nextJobId (s : ChewieState) (p : Port) (b : Bool) :
    (set_port_status s p b).nextJobId = s.nextJobId := by
  cases h : s.state_machines p <;> simp [set_port_status, h]

theorem port_down_sm_self (s : ChewieState) (p : Port) :
    (port_down s p).state_machines p = none := by
  have h1 := set_port_status_sm_self s p false
  cases hj : (set_port_status s p false).port_to_identity_job p <;>
    simp [port_down, h1, hj, upd]

theorem port_down_sm_other (s : ChewieState) (p q : Port) (hq : q ≠ p) :
    (port_down s p).state_machines q = s.state_machines q := by
  have h1 := set_port_status_sm_self s p false
  have h2 := set_port_status_sm_other s p q false hq
  cases hj : (set_port_status s p false).port_to_identity_job p <;>
    simp [port_down, h1, h2, hj, upd, hq]

theorem port_down_status (s : ChewieState) (p : Port) :
    (port_down s p).port_status = upd s.port_status p (some false) := by
  have h1 := set_port_status_sm_self s p false
  have h2 := set_port_status_status s p false
  cases hj : (set_port_status s p false).port_to_identity_job p <;>
    simp [port_down, h1, h2, hj]

theorem port_down_job (s : ChewieState) (p : Port) :
    (port_down s p).port_to_identity_job = s.port_to_identity_job := by
  have h1 := set_port_status_sm_self s p false
  have h2 := set_port_status_job s p false
  cases hj : (set_port_status s p false).port_to_identity_job p <;>
    simp [port_down, h1, h2, hj]

theorem port_down_eapol_self (s : ChewieState) (p : Port) :
    (port_down s p).port_to_eapol_id p = none := by
  have h1 := set_port_status_sm_self s p false
  cases hj : (set_port_status s p false).port_to_identity_job p <;>
    simp [port_down, h1, hj, upd]

theorem port_down_eapol_other (s : ChewieState) (p q : Port) (hq : q ≠ p) :
    (port_down s p).port_to_eapol_id q = s.port_to_eapol_id q := by
  have h1 := set_port_status_sm_self s p false
  have h2 := set_port_status_eapol s p false
  cases hj : (set_port_status s p false).port_to_identity_job p <;>
    simp [port_down, h1, h2, hj, upd, hq]

theorem port_down_cancels (s : ChewieState) (p : Port) (j : Nat)
    (hj : s.port_to_identity_job p = some j) :
    (port_down s p).cancelled j = true := by
  have h1 := set_port_status_sm_self s p false
  have h2 := set_port_status_job s p false
  have h3 := set_port_status_cancelled s p false
  have hj2 : (set_port_status s p false).port_to_identity_job p = some j := by
    rw [h2]; exact hj
  simp [port_down, h1, hj2, h3, upd]

theorem port_down_eap_output (s : ChewieState) (p : Port) :
    (port_down s p).eap_output = s.eap_output := by
  have h1 := set_port_status_sm_self s p false
  have h2 := set_port_status_eap_output s p false
  cases hj : (set_port_status s p false).port_to_identity_job p <;>
    simp [port_down, h1, h2, hj]

theorem fire_when_down (t : ChewieState) (P : Port) (draws : List Int)
    (h : (t.port_status P).getD false = false) :
    send_preemptive_identity_request_if_no_active_on_port t P draws =
      some { t with
        jobs := t.jobs ++ [⟨t.nextJobId, DEFAULT_PREEMPTIVE_IDENTITY_REQUEST_INTERVAL,
          TimerTask.preemptiveCheck P⟩],
        nextJobId := t.nextJobId + 1,
        port_to_identity_job := upd t.port_to_identity_job P (some t.nextJobId) } := by
  simp [send_preemptive_identity_request_if_no_active_on_port, call_later, h]

theorem fire_when_active (t : ChewieState) (P : Port) (draws : List Int)
    (h : (t.port_status P).getD false = true)
    (ha : anyActive ((t.state_machines P).getD []) = true) :
    send_preemptive_identity_request_if_no_active_on_port t P draws =
      some { t with
        jobs := t.jobs ++ [⟨t.nextJobId, DEFAULT_PREEMPTIVE_IDENTITY_REQUEST_INTERVAL,
          TimerTask.preemptiveCheck P⟩],
        nextJobId := t.nextJobId + 1,
        port_to_identity_job := upd t.port_to_identity_job P (some t.nextJobId) } := by
  simp [send_preemptive_identity_request_if_no_active_on_port, call_later, h, ha]

theorem fire_when_inactive (t : ChewieState) (P : Port) (draws : List Int) (i : Int)
    (h : (t.port_status P).getD false = true)
    (ha : anyActive ((t.state_machines P).getD []) = false)
    (hi : draws.head? = some i) :
    send_preemptive_identity_request_if_no_active_on_port t P draws =
      some { t with
        jobs := t.jobs ++ [⟨t.nextJobId, DEFAULT_PREEMPTIVE_IDENTITY_REQUEST_INTERVAL,
          TimerTask.preemptiveCheck P⟩],
        nextJobId := t.nextJobId + 1,
        port_to_identity_job := upd t.port_to_identity_job P (some t.nextJobId),
        port_to_eapol_id := upd t.port_to_eapol_id P (some i),
        eap_output := t.eap_output ++ [preemptiveMsg P i] } := by
  simp [send_preemptive_identity_request_if_no_active_on_port, call_later, h, ha,
    send_preemptive_identity_request, pickId, hi]

theorem lookup_append_of_none (l1 l2 : List (Mac × SM)) (k : Mac)
    (h : l1.lookup k = none) : (l1 ++ l2).lookup k = l2.lookup k := by
  induction l1 with
  | nil => simp
  | cons a t ih =>
    rcases a with ⟨a1, a2⟩
    simp only [List.cons_append, List.lookup] at h ⊢
    cases hk : (k == a1) with
    | true => rw [hk] at h; simp at h
    | false => rw [hk] at h; exact ih h

theorem get_sm_of_found (s : ChewieState) (src : Mac) (P : Port) (k : Int)
    (sm : SM) (h : lookupSM s P src = some sm) :
    get_state_machine s src P k = (sm, s) := by
  cases hp : s.state_machines P with
  | none => simp [lookupSM, hp] at h
  | some l =>
    simp [lookupSM, hp] at h
    simp [get_state_machine, hp, h]

theorem get_sm_stores (s : ChewieState) (src : Mac) (P : Port) (k : Int) :
    lookupSM (get_state_machine s src P k).2 P src =
      some (get_state_machine s src P k).1 := by
  cases hp : s.state_machines P with
  | none =>
    have hl : (List.lookup src ([] : List (Mac × SM))) = none := by simp
    by_cases hk : k = -2 <;>
      simp [get_state_machine, hp, lookupSM, upd, hk, List.lookup]
  | some l =>
    cases hl : l.lookup src with
    | some sm => simp [get_state_machine, hp, hl, lookupSM]
    | none =>
      by_cases hk : k = -2 <;>
        simp [get_state_machine, hp, hl, hk, lookupSM, upd,
          lookup_append_of_none l _ src hl, List.lookup]

theorem get_sm_preserves (s : ChewieState) (src : Mac) (P : Port) (k : Int) :
    (get_state_machine s src P k).2.port_to_eapol_id = s.port_to_eapol_id ∧
    (get_state_machine s src P k).2.running = s.running ∧
    (get_state_machine s src P k).2.delivered = s.delivered := by
  cases hp : s.state_machines P with
  | none => by_cases hk : k = -2 <;> simp [get_state_machine, hp, hk, upd, List.lookup]
  | some l =>
    cases hl : l.lookup src with
    | some sm => simp [get_state_machine, hp, hl]
    | none => by_cases hk : k = -2 <;> simp [get_state_machine, hp, hl, hk]

/-!
Claim theorems.
-/

/-- C1: after port_down(P) the port status of P is false, a reauth firing on
P finds no machine and leaves the dispatcher unchanged, and every firing of
the preemptive-identity-request timer on a port whose status is false
returns (after rescheduling itself) without enqueueing anything onto the EAP
output queue and without touching the port status. -/
theorem port_down_blocks_preemptive_output (s t : ChewieState) (P : Port)
    (draws : List Int) :
    (port_down s P).port_status P = some false ∧
    (∀ m, reauth_port (port_down s P) m P draws = some (port_down s P)) ∧
    ((t.port_status P).getD false = false →
      ∃ t2, send_preemptive_identity_request_if_no_active_on_port t P draws = some t2 ∧
        t2.eap_output = t.eap_output ∧ t2.port_status P = t.port_status P) := by
  refine ⟨?_, ?_, ?_⟩
  · rw [port_down_status]; exact upd_self ..
  · intro m
    have h := port_down_sm_self s P
    simp [reauth_port, lookupSM, h]
  · intro h
    exact ⟨_, fire_when_down t P draws h, rfl, rfl⟩

/-- C1 witness: on a concrete state, after port_down the preemptive timer
firing enqueues nothing and the reauth path is inert. -/
theorem port_down_blocks_preemptive_output_witness :
    (reauth_port (port_down wState "p1") "aa" "p1" [3] = some (port_down wState "p1")) ∧
    ∃ t2, send_preemptive_identity_request_if_no_active_on_port
        (port_down wState "p1") "p1" [3] = some t2 ∧
      t2.eap_output = (port_down wState "p1").eap_output ∧
      t2.port_status "p1" = (port_down wState "p1").port_status "p1" := by
  have h := port_down_blocks_preemptive_output wState (port_down wState "p1") "p1" [3]
  exact ⟨h.2.1 "aa", h.2.2 (by decide)⟩

/-- C3: port_down(P) removes the session table entry for P, cancels the
identity job stored for P, removes the preemptive eapol id for P, sets the
port status of P to false, and leaves the state of every other port
untouched. -/
theorem port_down_clears_port_state (s : ChewieState) (P : Port) :
    (port_down s P).state_machines P = none ∧
    (∀ j, s.port_to_identity_job P = some j → (port_down s P).cancelled j = true) ∧
    (port_down s P).port_to_eapol_id P = none ∧
    (port_down s P).port_status P = some false ∧
    (∀ Q, Q ≠ P →
      (port_down s P).state_machines Q = s.state_machines Q ∧
      (port_down s P).port_to_eapol_id Q = s.port_to_eapol_id Q ∧
      (port_down s P).port_to_identity_job Q = s.port_to_identity_job Q ∧
      (port_down s P).port_status Q = s.port_status Q) := by
  refine ⟨port_down_sm_self s P, fun j hj => port_down_cancels s P j hj,
    port_down_eapol_self s P, ?_, ?_⟩
  · rw [port_down_status]; exact upd_self ..
  · intro Q hQ
    exact ⟨port_down_sm_other s P Q hQ, port_down_eapol_other s P Q hQ,
      by rw [port_down_job], by rw [port_down_status]; exact upd_other _ _ _ _ hQ⟩

/-- C3 witness: on a concrete state port_down clears port p1 (cancelling its
stored job 5) and leaves port p2 untouched. -/
theorem port_down_clears_port_state_witness :
    (port_down wState "p1").state_machines "p1" = none ∧
    (port_down wState "p1").cancelled 5 = true ∧
    (port_down wState "p1").port_status "p2" = wState.port_status "p2" := by
  have h := port_down_clears_port_state wState "p1"
  exact ⟨h.1, h.2.1 5 (by decide), (h.2.2.2.2 "p2" (by decide)).2.2.2⟩

theorem fire_when_inactive_none (t : ChewieState) (P : Port) (draws : List Int)
    (h : (t.port_status P).getD false = true)
    (ha : anyActive ((t.state_machines P).getD []) = false)
    (hd : draws.head? = none) :
    send_preemptive_identity_request_if_no_active_on_port t P draws = none := by
  simp [send_preemptive_identity_request_if_no_active_on_port, call_later, h, ha,
    send_preemptive_identity_request, pickId, hd]

theorem bool_not_false {b : Bool} (h : ¬ b = false) : b = true := by
  cases b
  · exact absurd rfl h
  · rfl

theorem bool_not_true {b : Bool} (h : ¬ b = true) : b = false := by
  cases b
  · rfl
  · exact absurd rfl h

/-- C6: port_up(P) sets the port status to true and schedules the
preemptive identity check after 20 s; every firing of the check first
reschedules itself after 60 s, and enqueues the Identity Request to the PAE
group address, recording its id in port_to_eapol_id, exactly when the port
status is true and no machine on the port is in progress or success. -/
theorem port_up_preemptive_schedule (s : ChewieState) (P : Port) (draws : List Int) :
    (port_up s P).port_status P = some true ∧
    (port_up s P).port_to_identity_job P = some s.nextJobId ∧
    (ScheduledJob.mk s.nextJobId DEFAULT_PORT_UP_IDENTITY_REQUEST_WAIT_PERIOD
      (TimerTask.preemptiveCheck P)) ∈ (port_up s P).jobs ∧
    (∀ t t2, send_preemptive_identity_request_if_no_active_on_port t P draws = some t2 →
      (t2.port_to_identity_job P = some t.nextJobId ∧
        (ScheduledJob.mk t.nextJobId DEFAULT_PREEMPTIVE_IDENTITY_REQUEST_INTERVAL
          (TimerTask.preemptiveCheck P)) ∈ t2.jobs) ∧
      ((t.port_status P).getD false = true ∧
          anyActive ((t.state_machines P).getD []) = false →
        ∃ i, draws.head? = some i ∧
          t2.eap_output = t.eap_output ++ [preemptiveMsg P i] ∧
          t2.port_to_eapol_id P = some i) ∧
      (¬ ((t.port_status P).getD false = true ∧
          anyActive ((t.state_machines P).getD []) = false) →
        t2.eap_output = t.eap_output)) ∧
    (∀ t, draws ≠ [] →
      ∃ t2, send_preemptive_identity_request_if_no_active_on_port t P draws = some t2) := by
  refine ⟨?_, ?_, ?_, ?_, ?_⟩
  · simp [port_up, call_later, set_port_status_status, upd]
  · simp [port_up, call_later, set_port_status_nextJobId, upd]
  · simp [port_up, call_later, set_port_status_jobs, set_port_status_nextJobId]
  · intro t t2 h
    by_cases hs : (t.port_status P).getD false = false
    · rw [fire_when_down t P draws hs] at h
      injection h with h2
      subst h2
      refine ⟨⟨by simp [upd], by simp⟩, ?_, fun _ => rfl⟩
      intro hcon
      rw [hs] at hcon
      exact absurd hcon.1 (by simp)
    · have hs2 := bool_not_false hs
      by_cases ha : anyActive ((t.state_machines P).getD []) = true
      · rw [fire_when_active t P draws hs2 ha] at h
        injection h with h2
        subst h2
        refine ⟨⟨by simp [upd], by simp⟩, ?_, fun _ => rfl⟩
        intro hcon
        rw [ha] at hcon
        exact absurd hcon.2 (by simp)
      · have ha2 := bool_not_true ha
        cases hd : draws.head? with
        | none => rw [fire_when_inactive_none t P draws hs2 ha2 hd] at h; cases h
        | some i =>
          rw [fire_when_inactive t P draws i hs2 ha2 hd] at h
          injection h with h2
          subst h2
          exact ⟨⟨by simp [upd], by simp⟩,
            fun _ => ⟨i, rfl, rfl, by simp [upd]⟩,
            fun hcon => absurd ⟨hs2, ha2⟩ hcon⟩
  · intro t hd
    by_cases hs : (t.port_status P).getD false = false
    · exact ⟨_, fire_when_down t P draws hs⟩
    · have hs2 := bool_not_false hs
      by_cases ha : anyActive ((t.state_machines P).getD []) = true
      · exact ⟨_, fire_when_active t P draws hs2 ha⟩
      · have ha2 := bool_not_true ha
        cases hde : draws with
        | nil => exact absurd hde hd
        | cons i tl =>
          exact ⟨_, fire_when_inactive t P (i :: tl) i hs2 ha2 rfl⟩

/-- C6 witness: on a port that is up with no sessions, the firing emits the
Identity Request with the drawn id and records it. -/
theorem port_up_preemptive_schedule_witness :
    (port_up eState "p1").port_status "p1" = some true ∧
    ∃ t2, send_preemptive_identity_request_if_no_active_on_port eState "p1" [3] = some t2 ∧
      ∃ i, ([3] : List Int).head? = some i ∧
        t2.eap_output = eState.eap_output ++ [preemptiveMsg "p1" i] ∧
        t2.port_to_eapol_id "p1" = some i := by
  have h := port_up_preemptive_schedule eState "p1" [3]
  have hfire := fire_when_inactive eState "p1" [3] 3 (by decide) (by decide) rfl
  exact ⟨h.1, ⟨_, hfire, (h.2.2.2.1 eState _ hfire).2.1 ⟨by decide, by decide⟩⟩⟩

/-- C2 counterexample: in the reauth path the drawn id only avoids the
current_id of the reauthenticated (successful) session; on a concrete state
whose port p also hosts the in-progress session bb with current_id 7, the
draw 7 is accepted, recorded in port_to_eapol_id and enqueued, equalling the
current_id of that in-progress session. -/
theorem preemptive_id_collision_cex :
    Option.map (fun s2 => (s2.port_to_eapol_id "p", s2.eap_output))
        (reauth_port cState "aa" "p" [7]) =
      some (some 7, [preemptiveMsg "p" 7]) ∧
    lookupSM cState "p" "bb" = some smProg ∧
    smProg.inProgress = true ∧ smProg.currentId = some 7 := by
  exact ⟨by decide, by decide, rfl, rfl⟩

/-- C2 amended: when reauth_port emits, the enqueued id differs from the
current_id of the session passed to send_preemptive_identity_request (the
reauthenticated one); in the timer path an emission implies that no session
on the port was in progress or success at all.  The id is not checked
against the current_id of other sessions on the port. -/
theorem preemptive_id_distinct_amended (s : ChewieState) (src : Mac) (P : Port)
    (draws : List Int) :
    (∀ sm c s2, lookupSM s P src = some sm → sm.currentId = some c →
      reauth_port s src P draws = some s2 →
      s2.eap_output = s.eap_output ∨
        ∃ i, i ≠ c ∧ s2.eap_output = s.eap_output ++ [preemptiveMsg P i] ∧
          s2.port_to_eapol_id P = some i) ∧
    (∀ t t2, send_preemptive_identity_request_if_no_active_on_port t P draws = some t2 →
      t2.eap_output ≠ t.eap_output →
      anyActive ((t.state_machines P).getD []) = false) := by
  constructor
  · intro sm c s2 hsm hc hr
    simp only [reauth_port, hsm] at hr
    cases hsucc : sm.isSuccess with
    | false => rw [hsucc] at hr; simp at hr; subst hr; exact Or.inl rfl
    | true =>
      rw [hsucc] at hr
      simp only [if_true, send_preemptive_identity_request, pickId, hc] at hr
      cases hf : draws.find? (fun d => d != c) with
      | none => rw [hf] at hr; cases hr
      | some i =>
        rw [hf] at hr
        simp only [Option.some.injEq] at hr
        subst hr
        refine Or.inr ⟨i, ?_, rfl, by simp [upd]⟩
        have := List.find?_some hf
        simpa using this
  · intro t t2 hfire hneq
    by_cases hs : (t.port_status P).getD false = false
    · rw [fire_when_down t P draws hs] at hfire
      injection hfire with h2
      subst h2
      exact absurd rfl hneq
    · have hs2 := bool_not_false hs
      by_cases ha : anyActive ((t.state_machines P).getD []) = true
      · rw [fire_when_active t P draws hs2 ha] at hfire
        injection hfire with h2
        subst h2
        exact absurd rfl hneq
      · exact bool_not_true ha

/-- C2 amended witness: reauthenticating the successful session aa with
draw stream [5, 9] skips its current_id 5 and emits id 9. -/
theorem preemptive_id_distinct_amended_witness :
    ∃ s2, reauth_port cState "aa" "p" [5, 9] = some s2 ∧
      (s2.eap_output = cState.eap_output ∨
        ∃ i, i ≠ (5 : Int) ∧ s2.eap_output = cState.eap_output ++ [preemptiveMsg "p" i] ∧
          s2.port_to_eapol_id "p" = some i) := by
  have h := (preemptive_id_distinct_amended cState "aa" "p" [5, 9]).1 smSucc 5
  exact ⟨_, rfl, h _ (by decide) rfl rfl⟩

/-- C10: reauth_port emits exactly when a machine exists for (port, mac) and
reports success (given that the id draw terminates); with no machine, or a
machine in any non-success state, the dispatcher state is returned
unchanged. -/
theorem reauth_port_spec (s : ChewieState) (src : Mac) (P : Port) (draws : List Int) :
    (∀ sm i, lookupSM s P src = some sm → sm.isSuccess = true →
      pickId draws sm.currentId = some i →
      reauth_port s src P draws =
        some { s with port_to_eapol_id := upd s.port_to_eapol_id P (some i),
                      eap_output := s.eap_output ++ [preemptiveMsg P i] }) ∧
    (lookupSM s P src = none → reauth_port s src P draws = some s) ∧
    (∀ sm, lookupSM s P src = some sm → sm.isSuccess = false →
      reauth_port s src P draws = some s) := by
  refine ⟨?_, ?_, ?_⟩
  · intro sm i hsm hsucc hpick
    simp only [reauth_port, hsm, hsucc, if_true,
      send_preemptive_identity_request, hpick]
  · intro h
    simp [reauth_port, h]
  · intro sm hsm hsucc
    simp [reauth_port, hsm, hsucc]

/-- C10 witness: on the concrete state, reauth of the successful session aa
emits id 9, while reauth of the unknown session zz changes nothing. -/
theorem reauth_port_spec_witness :
    reauth_port cState "aa" "p" [9] =
      some { cState with
        port_to_eapol_id := upd cState.port_to_eapol_id "p" (some 9),
        eap_output := cState.eap_output ++ [preemptiveMsg "p" 9] } ∧
    reauth_port cState "zz" "p" [9] = some cState := by
  exact ⟨(reauth_port_spec cState "aa" "p" [9]).1 smSucc 9 (by decide) rfl (by decide),
    (reauth_port_spec cState "zz" "p" [9]).2.1 (by decide)⟩

theorem routing_cond_eq (mid : Int) (po : Option Int) (hm : mid = -1 ∨ 0 ≤ mid) :
    (mid ≠ -1 ∧ mid = po.getD (-2)) ↔ (mid ≠ -1 ∧ po = some mid) := by
  rcases po with _ | x
  · simp only [Option.getD_none]
    constructor
    · rintro ⟨h1, h2⟩
      subst h2
      rcases hm with hm | hm <;> omega
    · rintro ⟨_, h2⟩
      cases h2
  · simp only [Option.getD_some, Option.some.injEq]
    constructor
    · rintro ⟨h1, h2⟩
      exact ⟨h1, h2.symm⟩
    · rintro ⟨h1, h2⟩
      exact ⟨h1, h2.symm⟩

/-- C5: for an inbound EAP message (message_id -1 when absent, otherwise a
parsed 0..255 id) the dispatcher fetches or creates the session machine for
(source mac, port), and delivers to it an
EventPreemptiveEAPResponseMessageReceived exactly when the message_id is not
-1 and equals the preemptive id recorded in port_to_eapol_id for the port,
and an EventMessageReceived otherwise. -/
theorem send_eap_routing (s : ChewieState) (mid : Int) (src : Mac) (P : Port)
    (hrun : s.running = true) (hm : mid = -1 ∨ 0 ≤ mid) :
    ∃ sm s1, get_state_machine s src P mid = (sm, s1) ∧
      lookupSM s1 P src = some sm ∧
      send_eap_to_state_machine s mid src P =
        { s1 with delivered := s1.delivered ++ [(sm.uid,
            if mid ≠ -1 ∧ s.port_to_eapol_id P = some mid
            then ChewieEvent.preemptiveResponseReceived mid src P
              ((s.port_to_eapol_id P).getD (-2))
            else ChewieEvent.messageReceived mid src P)] } := by
  refine ⟨(get_state_machine s src P mid).1, (get_state_machine s src P mid).2,
    rfl, get_sm_stores s src P mid, ?_⟩
  have hpe := (get_sm_preserves s src P mid).1
  have hif : (if mid ≠ -1 ∧ mid = (s.port_to_eapol_id P).getD (-2)
        then ChewieEvent.preemptiveResponseReceived mid src P
          ((s.port_to_eapol_id P).getD (-2))
        else ChewieEvent.messageReceived mid src P) =
      (if mid ≠ -1 ∧ s.port_to_eapol_id P = some mid
        then ChewieEvent.preemptiveResponseReceived mid src P
          ((s.port_to_eapol_id P).getD (-2))
        else ChewieEvent.messageReceived mid src P) :=
    if_congr (routing_cond_eq mid (s.port_to_eapol_id P) hm) rfl rfl
  simp only [send_eap_to_state_machine, hrun, hpe, Bool.true_eq_false,
    if_false, hif]

/-- C5 witness: on a concrete state with preemptive id 9 recorded for p1,
an inbound EAP message with id 9 is routed as a preemptive response to the
machine stored for (p1, bb). -/
theorem send_eap_routing_witness :
    ∃ sm s1, get_state_machine wState "bb" "p1" 9 = (sm, s1) ∧
      lookupSM s1 "p1" "bb" = some sm ∧
      send_eap_to_state_machine wState 9 "bb" "p1" =
        { s1 with delivered := s1.delivered ++ [(sm.uid,
            if (9 : Int) ≠ -1 ∧ wState.port_to_eapol_id "p1" = some 9
            then ChewieEvent.preemptiveResponseReceived 9 "bb" "p1"
              ((wState.port_to_eapol_id "p1").getD (-2))
            else ChewieEvent.messageReceived 9 "bb" "p1")] } :=
  send_eap_routing wState 9 "bb" "p1" rfl (Or.inr (by decide))

/-- C7: get_state_machine returns the stored machine unchanged whenever one
exists for (port, mac) — for every message_id, including the MAB marker -2,
so an existing machine is never replaced — and after any call the returned
machine is stored, so a second call (with any message_id) returns the same
machine and leaves the state unchanged. -/
theorem get_state_machine_idempotent (s : ChewieState) (src : Mac) (P : Port)
    (k k2 : Int) :
    (∀ sm, lookupSM s P src = some sm → get_state_machine s src P k = (sm, s)) ∧
    (∀ sm s1, get_state_machine s src P k = (sm, s1) →
      lookupSM s1 P src = some sm ∧ get_state_machine s1 src P k2 = (sm, s1)) := by
  constructor
  · intro sm h
    exact get_sm_of_found s src P k sm h
  · intro sm s1 h
    have h1 : lookupSM s1 P src = some sm := by
      have h2 := get_sm_stores s src P k
      rw [h] at h2
      exact h2
    exact ⟨h1, get_sm_of_found s1 src P k2 sm h1⟩

/-- C7 witness: on a concrete state the existing machine for (p, aa) is
returned unchanged even for the MAB marker -2, and a repeated call returns
the same machine. -/
theorem get_state_machine_idempotent_witness :
    get_state_machine cState "aa" "p" (-2) = (smSucc, cState) ∧
    lookupSM cState "p" "aa" = some smSucc ∧
    get_state_machine cState "aa" "p" 0 = (smSucc, cState) := by
  have h := get_state_machine_idempotent cState "aa" "p" (-2) 0
  have h1 := h.1 smSucc (by decide)
  have h2 := h.2 smSucc cState h1
  exact ⟨h1, h2.1, h2.2⟩

theorem unpackBE16_take2_none (l : List Nat) :
    unpackBE16 (l.take 2) = none ↔ l.length ≤ 1 := by
  match l with
  | [] => simp [unpackBE16]
  | [x] => simp [unpackBE16]
  | x :: y :: t => simp [unpackBE16]

theorem pyslice_two (pkt : List Nat) (a : Nat) (h : a + 2 - a = 2) :
    pyslice pkt a (a + 2) = (pkt.drop a).take 2 := by
  simp [pyslice, h]

theorem unpack_pyslice_none (pkt : List Nat) (a : Nat) :
    unpackBE16 (pyslice pkt a (a + 2)) = none ↔ pkt.length < a + 2 := by
  rw [pyslice_two pkt a (by omega), unpackBE16_take2_none, List.length_drop]
  omega

theorem mab_step_accept_iff (pkt : List Nat) :
    mab_step pkt = MabStep.accept ↔ mabPredB pkt = true := by
  by_cases h23 : pyslice pkt 23 24 = [0x11]
  · cases hu : unpackBE16 (pyslice pkt 34 36) with
    | none => simp [mab_step, mabPredB, h23, hu]
    | some src =>
      cases hv : unpackBE16 (pyslice pkt 36 38) with
      | none => simp [mab_step, mabPredB, h23, hu, hv]
      | some dst =>
        by_cases hsd : src = 68 ∧ dst = 67
        · simp [mab_step, mabPredB, h23, hu, hv, hsd.1, hsd.2]
        · simp [mab_step, mabPredB, h23, hu, hv]
  · simp [mab_step, mabPredB, h23]

theorem mab_step_err_iff (pkt : List Nat) :
    mab_step pkt = MabStep.err ↔
      pyslice pkt 23 24 = [0x11] ∧ pkt.length < 38 := by
  by_cases h23 : pyslice pkt 23 24 = [0x11]
  · cases hu : unpackBE16 (pyslice pkt 34 36) with
    | none =>
      have h1 : pkt.length < 36 := (unpack_pyslice_none pkt 34).mp hu
      simp [mab_step, h23, hu]
      omega
    | some src =>
      have h1 : ¬ pkt.length < 36 := by
        intro hl
        rw [(unpack_pyslice_none pkt 34).mpr hl] at hu
        cases hu
      cases hv : unpackBE16 (pyslice pkt 36 38) with
      | none =>
        have h2 : pkt.length < 38 := (unpack_pyslice_none pkt 36).mp hv
        simp [mab_step, h23, hu, hv]
        exact h2
      | some dst =>
        have h2 : ¬ pkt.length < 38 := by
          intro hl
          rw [(unpack_pyslice_none pkt 36).mpr hl] at hv
          cases hv
        by_cases hsd : src = 68 ∧ dst = 67
        · simp [mab_step, h23, hu, hv, hsd.1, hsd.2, h2]
        · simp [mab_step, h23, hu, hv, hsd, h2]
  · simp [mab_step, h23]

theorem MabSocket_receive_sound (pkts : List (List Nat)) (q : List Nat)
    (h : MabSocket_receive pkts = MabResult.accepted q) : mabPredB q = true := by
  induction pkts with
  | nil => simp [MabSocket_receive] at h
  | cons p ps ih =>
    cases hstep : mab_step p with
    | accept =>
      simp [MabSocket_receive, hstep] at h
      subst h
      exact (mab_step_accept_iff p).mp hstep
    | skip =>
      simp [MabSocket_receive, hstep] at h
      exact ih h
    | err => simp [MabSocket_receive, hstep] at h

/-- C4 amended: a frame is accepted by one filter step exactly when it
satisfies the DHCP predicate (protocol byte 0x11, UDP ports 68 to 67), a
skipped frame is dropped silently with reception continuing, and every
returned frame satisfies the predicate; however a frame whose byte 23 is
0x11 but which is shorter than 38 bytes makes receive raise struct.error
instead of dropping it. -/
theorem mab_receive_filter_amended (pkt : List Nat) (rest : List (List Nat)) :
    (mab_step pkt = MabStep.accept ↔ mabPredB pkt = true) ∧
    (mab_step pkt = MabStep.accept →
      MabSocket_receive (pkt :: rest) = MabResult.accepted pkt) ∧
    (mab_step pkt = MabStep.skip →
      MabSocket_receive (pkt :: rest) = MabSocket_receive rest) ∧
    (mab_step pkt = MabStep.err →
      MabSocket_receive (pkt :: rest) = MabResult.raised) ∧
    (mab_step pkt = MabStep.err ↔
      pyslice pkt 23 24 = [0x11] ∧ pkt.length < 38) ∧
    (∀ pkts q, MabSocket_receive pkts = MabResult.accepted q → mabPredB q = true) := by
  refine ⟨mab_step_accept_iff pkt, ?_, ?_, ?_, mab_step_err_iff pkt,
    MabSocket_receive_sound⟩
  · intro h
    simp [MabSocket_receive, h]
  · intro h
    simp [MabSocket_receive, h]
  · intro h
    simp [MabSocket_receive, h]

/-- C4 witness: the well-formed DHCP frame is returned, and a truncated
frame with protocol byte 0x11 raises. -/
theorem mab_receive_filter_amended_witness :
    MabSocket_receive [mabGoodPkt] = MabResult.accepted mabGoodPkt ∧
    MabSocket_receive [mabBadPkt] = MabResult.raised := by
  exact ⟨(mab_receive_filter_amended mabGoodPkt []).2.1 (by decide),
    (mab_receive_filter_amended mabBadPkt []).2.2.2.1 (by decide)⟩

/-- C4 counterexample: the 24-byte frame mabBadPkt fails the DHCP predicate,
yet receive raises struct.error on it instead of dropping it silently and
returning the following well-formed frame. -/
theorem mab_receive_silent_drop_cex :
    mabPredB mabBadPkt = false ∧ mabPredB mabGoodPkt = true ∧
    MabSocket_receive [mabBadPkt, mabGoodPkt] = MabResult.raised := by
  exact ⟨by decide, by decide, by decide⟩

/-- C8: the MAB receive loop never lets an exception escape: over any
iteration script the loop returns normally; an iteration that raises while
running is absorbed into a backoff with the loop continuing, an iteration
with the running flag false exits the loop, and a received frame is handled
with the loop continuing. -/
theorem receive_mab_messages_absorbs (script : List LoopIter) (it : LoopIter)
    (rest : List LoopIter) :
    (∃ acts, receive_mab_messages script = Except.ok acts) ∧
    (it.running = false → receive_mab_messages (it :: rest) = Except.ok []) ∧
    (∀ pkt, it.running = true → it.recv = RecvOutcome.ok pkt →
      receive_mab_messages (it :: rest) =
        Except.map (fun acts => MabAction.handled pkt :: acts)
          (receive_mab_messages rest)) ∧
    (it.running = true → it.recv = RecvOutcome.exc →
      receive_mab_messages (it :: rest) =
        Except.map (fun acts => MabAction.backoff :: acts)
          (receive_mab_messages rest)) := by
  refine ⟨?_, ?_, ?_, ?_⟩
  · induction script with
    | nil => exact ⟨[], rfl⟩
    | cons a t ih =>
      obtain ⟨acts, hacts⟩ := ih
      cases hr : a.running with
      | false => exact ⟨[], by simp [receive_mab_messages, hr]⟩
      | true =>
        cases hb : a.recv with
        | ok p =>
          exact ⟨MabAction.handled p :: acts,
            by simp [receive_mab_messages, hr, mab_try_body, hb, hacts, Except.map]⟩
        | exc =>
          exact ⟨MabAction.backoff :: acts,
            by simp [receive_mab_messages, hr, mab_try_body, hb, hacts, Except.map]⟩
  · intro h
    simp [receive_mab_messages, h]
  · intro pkt h1 h2
    simp [receive_mab_messages, h1, mab_try_body, h2]
  · intro h1 h2
    simp [receive_mab_messages, h1, mab_try_body, h2]

/-- C8 witness: a raising iteration while running becomes a backoff and the
loop goes on to handle the next frame. -/
theorem receive_mab_messages_absorbs_witness :
    (∃ acts, receive_mab_messages
      [⟨true, RecvOutcome.exc⟩, ⟨true, RecvOutcome.ok [1]⟩] = Except.ok acts) ∧
    receive_mab_messages [⟨true, RecvOutcome.exc⟩] =
      Except.map (fun acts => MabAction.backoff :: acts)
        (receive_mab_messages []) := by
  have h := receive_mab_messages_absorbs
    [⟨true, RecvOutcome.exc⟩, ⟨true, RecvOutcome.ok [1]⟩] ⟨true, RecvOutcome.exc⟩ []
  exact ⟨h.1, h.2.2.2 rfl rfl⟩

/-- C9: EapSocket.close always returns without raising, leaves the socket
field null, is idempotent (a second close returns immediately without
raising), and the EAP receive loop observing the nulled socket field takes
the break branch instead of receiving again. -/
theorem eap_socket_close_spec (s : EapSock) (r : Bool) :
    ∃ t, EapSocket_close s = Except.ok t ∧ t.sock = none ∧
      EapSocket_close t = Except.ok t ∧
      receive_eap_iter r (some t) = IterDecision.exitLoop := by
  cases hs : s.sock with
  | none =>
    exact ⟨s, by simp [EapSocket_close, hs], hs, by simp [EapSocket_close, hs],
      by cases r <;> simp [receive_eap_iter, hs]⟩
  | some fd =>
    exact ⟨⟨none⟩, by simp [EapSocket_close, hs], rfl, by simp [EapSocket_close],
      by cases r <;> simp [receive_eap_iter]⟩
